import Mathlib

/-!
# Verification of the prisma-calls credential rotation orchestrator

Shallow embedding of the two rotation programs of this repository:

* `src/keys/rotate2.py` — the Lambda rotation: `process_rotation` (the rotation
  state machine) and `lambda_handler` (the batch runner).
* `src/keys/rotation.py` — the standalone rotation script: `main` together with
  its helpers (`delete_inactive_keys`, `deactivate_key`, ...).

Network calls are modelled by an oracle (`Env2` for rotate2.py, `EnvR` for
rotation.py) stating, for each call site, whether the call succeeds at the HTTP
level (a failing call is one on which `raise_for_status` would raise; where the
source does not call `raise_for_status`, a failing response is ignored, exactly
as in the source).  The identity service's key set and the Vault secret mapping
are threaded as explicit state, and every outgoing request is recorded as an
`Event` so that ordering and authentication (which session token a request
carries) can be stated.
-/

/-- A key as rotate2.py sees it: the listing's entries carry an `id` and a
boolean `status` (rotate2.py line 95 treats a falsy status as Inactive and its
deactivation patch sends `{"status": False}`). -/
structure Key2 where
  id : String
  status : Bool
deriving DecidableEq

/-- A key as rotation.py sees it: `status` is the string `"ACTIVE"` or
`"INACTIVE"` (rotation.py lines 48, 92, 120). -/
structure KeyR where
  id : String
  status : String
deriving DecidableEq

/-- One outgoing request (or locally observable commit) of a rotation run, in
program order.  `storeWrite` is rotate2.py's Vault update POST; `outputCreds`
is rotation.py's final stdout emission of the new credential, which per the
source comment (rotation.py line 135: "Vault will read this from stdout and
update its secret store") is that program's store commit. -/
inductive Event where
  | fetch : Event
  | loginOld : String → Event
  | listKeys : Event
  | deleteReq : String → String → Event
  | bulkDeleteReq : String → List String → Event
  | createReq : String → Event
  | verifyOk : String → Event
  | verifyFailEv : Event
  | storeWrite : Event
  | deactivateReq : String → String → Event
  | outputCreds : String → String → Event
deriving DecidableEq

/-- Failure outcomes of one rotate2.py `process_rotation` run (the Python
exceptions, by the call that raised them). -/
inductive RotErr where
  | fetchFail : RotErr
  | missingFields : RotErr
  | authFail : RotErr
  | listFail : RotErr
  | cleanupDeleteFail : String → RotErr
  | createFail : RotErr
  | verifyFail : RotErr
  | storeFail : RotErr
  | deactivateFail : RotErr
deriving DecidableEq

/-- Failure outcomes of one rotation.py `main` run (its `sys.exit(1)` paths). -/
inductive RErrR where
  | envMissing : RErrR
  | authFail : RErrR
  | createFail : RErrR
deriving DecidableEq

/-- Call-outcome oracle for one rotate2.py `process_rotation` run.  Booleans
say whether the corresponding HTTP call succeeds; `tokenA`/`tokenB` are the
session tokens returned by the two logins; `newId`/`newSecret` are the
credential returned by the create call. -/
structure Env2 where
  readOk : Bool
  loginOldOk : Bool
  tokenA : String
  listOk : Bool
  delOk : String → Bool
  createOk : Bool
  newId : String
  newSecret : String
  loginNewOk : Bool
  tokenB : String
  writeOk : Bool
  patchOk : Bool

/-- World state of one rotate2.py run: the Vault secret mapping at the task's
path and the identity service's key set. -/
structure PState where
  vault : List (String × String)
  keys : List Key2
deriving DecidableEq

/-- Lookup in a Python-dict-like mapping (first matching key). -/
def getField : List (String × String) → String → Option String
  | [], _ => none
  | (k', v') :: rest, k => if k' = k then some v' else getField rest k

/-- Python dict assignment `m[k] = v`: replace the binding if present,
append otherwise. -/
def setField : List (String × String) → String → String → List (String × String)
  | [], k, v => [(k, v)]
  | (k', v') :: rest, k, v =>
      if k' = k then (k, v) :: rest else (k', v') :: setField rest k v

/-- Python truthiness of an optional string: `not x` holds for a missing field
and for the empty string (rotate2.py line 80). -/
def fieldBlank : Option String → Bool
  | none => true
  | some s => s == ""

/-- rotate2.py lines 94-98: iterate over the listed snapshot `all_keys`; for
each key with falsy status issue a DELETE and `raise_for_status` it.  Returns
(ids whose deletion was attempted, service key set after the loop, and
`some id` when the deletion of `id` failed, aborting the loop). -/
def cleanupLoop (d : String → Bool) : List Key2 → List Key2 →
    List String × List Key2 × Option String
  | [], svc => ([], svc, none)
  | k :: rest, svc =>
    if k.status then cleanupLoop d rest svc
    else if d k.id then
      let r := cleanupLoop d rest (svc.filter (fun j => j.id != k.id))
      (k.id :: r.1, r.2.1, r.2.2)
    else ([k.id], svc, some k.id)

/-- rotate2.py lines 130-132: `current_secrets.copy()` with `access_key_id`
and `secret_key` reassigned to the new credential. -/
def newVaultData (cur : List (String × String)) (nid nsk : String) :
    List (String × String) :=
  setField (setField cur "access_key_id" nid) "secret_key" nsk

/-- Embedding of rotate2.py `process_rotation` (lines 69-146): fetch the
secret, login with it (session A), list and clean up inactive keys, create a
new key, verify it by logging in with it (session B), write the new credential
to Vault, and finally patch the old key inactive using session B.  Returns the
request trace, the final world state, and the run's outcome. -/
def process_rotation (env : Env2) (st : PState) :
    List Event × PState × Except RotErr Unit :=
  if env.readOk = false then ([], st, .error .fetchFail)
  else if fieldBlank (getField st.vault "access_key_id")
       || fieldBlank (getField st.vault "secret_key") then
    ([.fetch], st, .error .missingFields)
  else
    let oldAK := (getField st.vault "access_key_id").getD ""
    if env.loginOldOk = false then ([.fetch], st, .error .authFail)
    else if env.listOk = false then
      ([.fetch, .loginOld env.tokenA], st, .error .listFail)
    else
      let c := cleanupLoop env.delOk st.keys st.keys
      let tr0 := [Event.fetch, Event.loginOld env.tokenA, Event.listKeys]
        ++ c.1.map (Event.deleteReq env.tokenA)
      match c.2.2 with
      | some i => (tr0, ⟨st.vault, c.2.1⟩, .error (.cleanupDeleteFail i))
      | none =>
        if env.createOk = false then (tr0, ⟨st.vault, c.2.1⟩, .error .createFail)
        else
          let keys1 := c.2.1 ++ [⟨env.newId, true⟩]
          let tr1 := tr0 ++ [Event.createReq env.newId]
          if env.loginNewOk = false then
            (tr1 ++ [.verifyFailEv, .deleteReq env.tokenA env.newId],
             ⟨st.vault,
              if env.delOk env.newId then keys1.filter (fun j => j.id != env.newId)
              else keys1⟩,
             .error .verifyFail)
          else
            let tr2 := tr1 ++ [Event.verifyOk env.tokenB, Event.storeWrite]
            if env.writeOk = false then (tr2, ⟨st.vault, keys1⟩, .error .storeFail)
            else
              let vault1 := newVaultData st.vault env.newId env.newSecret
              let tr3 := tr2 ++ [Event.deactivateReq env.tokenB oldAK]
              if env.patchOk = false then (tr3, ⟨vault1, keys1⟩, .error .deactivateFail)
              else
                (tr3,
                 ⟨vault1,
                  keys1.map (fun j => if j.id = oldAK then ⟨j.id, false⟩ else j)⟩,
                 .ok ())

/-- One configured task of rotate2.py's batch runner: the secret path from
`secrets_config.json` plus that task's call oracle and world. -/
structure TaskItem where
  path : String
  env : Env2
  st : PState

/-- One entry of the results list built by rotate2.py `lambda_handler`
(lines 161-164). -/
structure TaskResult where
  path : String
  success : Bool
  err : Option RotErr
deriving DecidableEq

/-- The body of `lambda_handler`'s per-item try/except (rotate2.py
lines 159-164): a raising `process_rotation` is caught and recorded. -/
def runTask (it : TaskItem) : TaskResult :=
  match (process_rotation it.env it.st).2.2 with
  | Except.ok _ => ⟨it.path, true, none⟩
  | Except.error e => ⟨it.path, false, some e⟩

/-- The loop of rotate2.py `lambda_handler` (lines 158-164): one appended
result per config item, in order. -/
def runAll : List TaskItem → List TaskResult
  | [] => []
  | it :: rest => runTask it :: runAll rest

/-- Embedding of rotate2.py `lambda_handler` (lines 148-169): statusCode 500
when the config file cannot be loaded, otherwise run every task and return
statusCode 200 with the results list. -/
def lambda_handler (cfgLoadOk : Bool) (cfg : List TaskItem) :
    Nat × List TaskResult :=
  if cfgLoadOk = false then (500, [])
  else (200, runAll cfg)

/-- Call-outcome oracle for one rotation.py `main` run. -/
structure EnvR where
  envSet : Bool
  loginOk : Bool
  tokenA : String
  listOk : Bool
  bulkDeleteOk : Bool
  createOk : Bool
  newId : String
  newSecret : String
  deactOk : Bool

/-- Embedding of rotation.py `delete_inactive_keys` (lines 46-66): filter the
passed snapshot for status `"INACTIVE"`; when nonempty, issue one bulk DELETE
for exactly those ids; a failing bulk delete is swallowed (line 66). -/
def delete_inactive_keys (bulkOk : Bool) (tok : String)
    (snapshot svc : List KeyR) : List Event × List KeyR :=
  let inact := snapshot.filter (fun k => k.status == "INACTIVE")
  if inact.isEmpty then ([], svc)
  else
    let ids := inact.map (fun k => k.id)
    ([Event.bulkDeleteReq tok ids],
     if bulkOk then svc.filter (fun k => !(ids.contains k.id)) else svc)

/-- Embedding of rotation.py `main` (lines 105-140; named `rotation_main` here since Lean reserves `main` for executables): login (exit on failure),
list keys (a failed listing yields `[]`, line 44), remember the first ACTIVE
key, bulk-delete the inactive ones, create the new key (exit on failure),
deactivate the previously active key with the same `auth_token` (a failure is
swallowed, lines 99-101), and finally print the new credential for Vault. -/
def rotation_main (env : EnvR) (svc : List KeyR) :
    List Event × List KeyR × Except RErrR (String × String) :=
  if env.envSet = false then ([], svc, .error .envMissing)
  else if env.loginOk = false then ([], svc, .error .authFail)
  else
    let allKeys := if env.listOk then svc else []
    let prevActive := allKeys.find? (fun k => k.status == "ACTIVE")
    let d := delete_inactive_keys env.bulkDeleteOk env.tokenA allKeys svc
    let tr0 := Event.loginOld env.tokenA :: d.1
    if env.createOk = false then (tr0, d.2, .error .createFail)
    else
      let svc1 := d.2 ++ [⟨env.newId, "ACTIVE"⟩]
      let tr1 := tr0 ++ [Event.createReq env.newId]
      match prevActive with
      | some k =>
        (tr1 ++ [Event.deactivateReq env.tokenA k.id,
                 Event.outputCreds env.newId env.newSecret],
         (if env.deactOk then
            svc1.map (fun j => if j.id = k.id then ⟨j.id, "INACTIVE"⟩ else j)
          else svc1),
         .ok (env.newId, env.newSecret))
      | none =>
        (tr1 ++ [Event.outputCreds env.newId env.newSecret], svc1,
         .ok (env.newId, env.newSecret))

/-- The committed-only-after-verification check on a trace: scanning left to
right, every store commit (rotate2.py's Vault write or rotation.py's stdout
credential output) must be preceded by a successful login with the newly
created credential. -/
def commitAfterVerify (seen : Bool) : List Event → Bool
  | [] => true
  | Event.verifyOk _ :: r => commitAfterVerify true r
  | Event.storeWrite :: r => seen && commitAfterVerify seen r
  | Event.outputCreds _ _ :: r => seen && commitAfterVerify seen r
  | _ :: r => commitAfterVerify seen r

/-- The deactivation-session check on a trace: every deactivation request must
carry a token previously obtained by logging in with the newly created
credential (a "session B" token). -/
def deactUsesVerifiedSession (toks : List String) : List Event → Bool
  | [] => true
  | Event.verifyOk t :: r => deactUsesVerifiedSession (t :: toks) r
  | Event.deactivateReq t _ :: r =>
      toks.contains t && deactUsesVerifiedSession toks r
  | _ :: r => deactUsesVerifiedSession toks r

/-! ## Concrete inputs used by witnesses and counterexamples -/

/-- An all-success oracle for rotate2.py runs. -/
def envOk : Env2 :=
  ⟨true, true, "tokA", true, fun _ => true, true, "K2", "S2", true, "tokB", true, true⟩

/-- A healthy pre-state: Vault holds key `K1`, the service knows `K1` ACTIVE. -/
def stOk : PState :=
  ⟨[("access_key_id", "K1"), ("secret_key", "S1"), ("note", "keep")], [⟨"K1", true⟩]⟩

/-- Oracle whose key-deletion calls all fail (for the CLEANUP-failure run). -/
def envDelFail : Env2 :=
  ⟨true, true, "tokA", true, fun _ => false, true, "K2", "S2", true, "tokB", true, true⟩

/-- Pre-state with a stale INACTIVE key `K0` awaiting cleanup. -/
def stWithInactive : PState :=
  ⟨[("access_key_id", "K1"), ("secret_key", "S1")], [⟨"K1", true⟩, ⟨"K0", false⟩]⟩

/-- All-success oracle except the final deactivation patch fails. -/
def envPatchFail : Env2 :=
  ⟨true, true, "tokA", true, fun _ => true, true, "K2", "S2", true, "tokB", true, false⟩

/-- All-success oracle except the login with the new key (VERIFY) fails. -/
def envVerifyFail : Env2 :=
  ⟨true, true, "tokA", true, fun _ => true, true, "K2", "S2", false, "tokB", true, true⟩

/-- All-success oracle except the Vault write (COMMIT) fails. -/
def envWriteFail : Env2 :=
  ⟨true, true, "tokA", true, fun _ => true, true, "K2", "S2", true, "tokB", false, true⟩

/-- Oracle whose Vault read fails (a task that fails at FETCH). -/
def envReadFail : Env2 :=
  ⟨false, true, "tokA", true, fun _ => true, true, "K2", "S2", true, "tokB", true, true⟩

/-- All-success oracle for rotation.py runs. -/
def envROk : EnvR := ⟨true, true, "tokA", true, true, true, "K2", "S2", true⟩

/-- rotation.py world: one ACTIVE key `K1`. -/
def svcROk : List KeyR := [⟨"K1", "ACTIVE"⟩]

/-- rotation.py oracle whose deactivation patch fails. -/
def envRDeactFail : EnvR := ⟨true, true, "tokA", true, true, true, "K2", "S2", false⟩

/-- A two-task batch whose first task fails at FETCH and whose second
succeeds. -/
def cfgTwo : List TaskItem := [⟨"p1", envReadFail, stOk⟩, ⟨"p2", envOk, stOk⟩]

/-- Default task used to state positional lookups. -/
def taskDflt : TaskItem := ⟨"dflt", envOk, stOk⟩

/-! ## Helper lemmas -/

/-- Looking up the field just set yields the new value. -/
theorem getField_setField_self (m : List (String × String)) (k v : String) :
    getField (setField m k v) k = some v := by
  induction m with
  | nil => simp [setField, getField]
  | cons p rest ih =>
    by_cases h : p.1 = k <;> simp [setField, getField, h, ih]

/-- Setting one field leaves every other field's lookup unchanged. -/
theorem getField_setField_other (m : List (String × String)) (k v k' : String)
    (h : k' ≠ k) : getField (setField m k v) k' = getField m k' := by
  induction m with
  | nil => simp [setField, getField, Ne.symm h]
  | cons p rest ih =>
    by_cases hp : p.1 = k <;>
      by_cases hp' : p.1 = k' <;>
      simp_all [setField, getField]

/-- Every key surviving the cleanup loop was already in the service's key
set. -/
theorem cleanupLoop_keys_subset (d : String → Bool) (snap : List Key2) :
    ∀ ks x, x ∈ (cleanupLoop d snap ks).2.1 → x ∈ ks := by
  induction snap with
  | nil => intro ks x hx; simpa [cleanupLoop] using hx
  | cons k rest ih =>
    intro ks x hx
    by_cases hs : k.status
    · exact ih ks x (by simpa [cleanupLoop, hs] using hx)
    · by_cases hd : d k.id
      · have hx' : x ∈ (cleanupLoop d rest (ks.filter (fun j => j.id != k.id))).2.1 := by
          simpa [cleanupLoop, hs, hd] using hx
        have := ih _ x hx'
        exact List.mem_of_mem_filter this
      · simpa [cleanupLoop, hs, hd] using hx

/-- The cleanup loop never removes a key bearing an id all of whose snapshot
entries are ACTIVE. -/
theorem cleanupLoop_preserves_active (d : String → Bool) (snap : List Key2)
    (a : String) (hs : ∀ k, k ∈ snap → k.id = a → k.status = true) :
    ∀ ks, (⟨a, true⟩ : Key2) ∈ ks → (⟨a, true⟩ : Key2) ∈ (cleanupLoop d snap ks).2.1 := by
  induction snap with
  | nil => intro ks h; simpa [cleanupLoop] using h
  | cons k rest ih =>
    intro ks h
    have hs' : ∀ j, j ∈ rest → j.id = a → j.status = true := fun j hj => hs j (by simp [hj])
    by_cases hst : k.status
    · simpa [cleanupLoop, hst] using ih hs' ks h
    · have hka : k.id ≠ a := by
        intro hEq
        exact hst (hs k (by simp) hEq)
      by_cases hd : d k.id
      · have hmem : (⟨a, true⟩ : Key2) ∈ ks.filter (fun j => j.id != k.id) := by
          refine List.mem_filter.mpr ⟨h, ?_⟩
          simpa [bne_iff_ne] using fun hEq => hka hEq.symm
        simpa [cleanupLoop, hst, hd] using ih hs' _ hmem
      · simpa [cleanupLoop, hst, hd] using h

/-- Every id whose deletion the cleanup loop attempts belongs to an INACTIVE
key of the listed snapshot. -/
theorem cleanupLoop_attempts_inactive (d : String → Bool) (snap : List Key2) :
    ∀ ks i, i ∈ (cleanupLoop d snap ks).1 →
      ∃ k, k ∈ snap ∧ k.id = i ∧ k.status = false := by
  induction snap with
  | nil => intro ks i hi; simp [cleanupLoop] at hi
  | cons k rest ih =>
    intro ks i hi
    by_cases hst : k.status
    · obtain ⟨j, hj, hji, hjs⟩ := ih ks i (by simpa [cleanupLoop, hst] using hi)
      exact ⟨j, by simp [hj], hji, hjs⟩
    · by_cases hd : d k.id
      · have hi' : i = k.id ∨ i ∈ (cleanupLoop d rest (ks.filter (fun j => j.id != k.id))).1 := by
          simpa [cleanupLoop, hst, hd] using hi
        rcases hi' with rfl | hi'
        · exact ⟨k, by simp, rfl, by simpa using hst⟩
        · obtain ⟨j, hj, hji, hjs⟩ := ih _ i hi'
          exact ⟨j, by simp [hj], hji, hjs⟩
      · have hi' : i = k.id := by simpa [cleanupLoop, hst, hd] using hi
        exact ⟨k, by simp, hi'.symm, by simpa using hst⟩

/-- When the deletion of every INACTIVE snapshot key succeeds, the cleanup
loop attempts exactly the INACTIVE snapshot ids, in listing order. -/
theorem cleanupLoop_attempts_exact (d : String → Bool) (snap : List Key2)
    (hok : ∀ k, k ∈ snap → k.status = false → d k.id = true) :
    ∀ ks, (cleanupLoop d snap ks).1
      = (snap.filter (fun k => !k.status)).map (fun k => k.id) := by
  induction snap with
  | nil => intro ks; simp [cleanupLoop]
  | cons k rest ih =>
    intro ks
    have hok' : ∀ j, j ∈ rest → j.status = false → d j.id = true :=
      fun j hj => hok j (by simp [hj])
    by_cases hst : k.status
    · simp [cleanupLoop, hst, ih hok']
    · have hd : d k.id = true := hok k (by simp) (by simpa using hst)
      simp [cleanupLoop, hst, hd, ih hok']

/-- Scanning past per-key deletion requests changes neither verification nor
commit bookkeeping. -/
theorem commitAfterVerify_skip_deletes (t : String) (ids : List String)
    (seen : Bool) (r : List Event) :
    commitAfterVerify seen (ids.map (Event.deleteReq t) ++ r)
      = commitAfterVerify seen r := by
  induction ids with
  | nil => rfl
  | cons i is ih => simpa [commitAfterVerify] using ih

/-- A trace consisting solely of per-key deletion requests passes the
commit-only-after-verification check. -/
theorem commitAfterVerify_deletes (t : String) (ids : List String) (seen : Bool) :
    commitAfterVerify seen (ids.map (Event.deleteReq t)) = true := by
  induction ids with
  | nil => rfl
  | cons i is ih => simpa [commitAfterVerify] using ih

/-- Scanning past per-key deletion requests leaves the deactivation-session
check unchanged. -/
theorem deactUses_skip_deletes (t : String) (ids : List String)
    (toks : List String) (r : List Event) :
    deactUsesVerifiedSession toks (ids.map (Event.deleteReq t) ++ r)
      = deactUsesVerifiedSession toks r := by
  induction ids with
  | nil => rfl
  | cons i is ih => simpa [deactUsesVerifiedSession] using ih

/-- A trace consisting solely of per-key deletion requests passes the
deactivation-session check. -/
theorem deactUses_deletes (t : String) (ids : List String) (toks : List String) :
    deactUsesVerifiedSession toks (ids.map (Event.deleteReq t)) = true := by
  induction ids with
  | nil => rfl
  | cons i is ih => simpa [deactUsesVerifiedSession] using ih

/-- One result per processed config item. -/
theorem runAll_length (l : List TaskItem) : (runAll l).length = l.length := by
  induction l with
  | nil => rfl
  | cons x xs ih => simp [runAll, ih]

/-- The i-th result of the batch loop is the result of running the i-th task
alone; the surrounding tasks' outcomes play no part. -/
theorem runAll_getD (l : List TaskItem) :
    ∀ (i : Nat) (t0 : TaskItem), i < l.length →
      (runAll l).getD i (runTask t0) = runTask (l.getD i t0) := by
  induction l with
  | nil => intro i t0 hi; simp at hi
  | cons x xs ih =>
    intro i t0 hi
    cases i with
    | zero => simp [runAll]
    | succ n => simpa [runAll] using ih n t0 (by simpa using hi)

/-! ## Claims -/

/-- Claim C2: in every rotate2.py rotation run that reaches VERIFY (Vault
read, old-credential login, listing and cleanup, and key creation all
succeeded) and whose login with the new key fails, the run terminates FAILED
with the verification error, Vault still holds the original secret (no store
write occurred), and deletion of the newly created key is requested with the
session-A token — all regardless of the unconstrained rollback-deletion
outcome `env.delOk env.newId`. -/
theorem C2_verify_failure_rolls_back (env : Env2) (st : PState)
    (h1 : env.readOk = true)
    (h2 : fieldBlank (getField st.vault "access_key_id") = false)
    (h3 : fieldBlank (getField st.vault "secret_key") = false)
    (h4 : env.loginOldOk = true)
    (h5 : env.listOk = true)
    (h6 : (cleanupLoop env.delOk st.keys st.keys).2.2 = none)
    (h7 : env.createOk = true)
    (h8 : env.loginNewOk = false) :
    (process_rotation env st).2.2 = Except.error RotErr.verifyFail
    ∧ (process_rotation env st).2.1.vault = st.vault
    ∧ Event.deleteReq env.tokenA env.newId ∈ (process_rotation env st).1
    ∧ Event.storeWrite ∉ (process_rotation env st).1 := by
  refine ⟨?_, ?_, ?_, ?_⟩ <;>
    simp [process_rotation, h1, h2, h3, h4, h5, h6, h7, h8]

/-- Claim C2 witness: the VERIFY-failure oracle on the healthy pre-state. -/
theorem C2_witness :
    envVerifyFail.readOk = true
    ∧ fieldBlank (getField stOk.vault "access_key_id") = false
    ∧ fieldBlank (getField stOk.vault "secret_key") = false
    ∧ envVerifyFail.loginOldOk = true
    ∧ envVerifyFail.listOk = true
    ∧ (cleanupLoop envVerifyFail.delOk stOk.keys stOk.keys).2.2 = none
    ∧ envVerifyFail.createOk = true
    ∧ envVerifyFail.loginNewOk = false
    ∧ ((process_rotation envVerifyFail stOk).2.2 = Except.error RotErr.verifyFail
       ∧ (process_rotation envVerifyFail stOk).2.1.vault = stOk.vault
       ∧ Event.deleteReq envVerifyFail.tokenA envVerifyFail.newId
           ∈ (process_rotation envVerifyFail stOk).1
       ∧ Event.storeWrite ∉ (process_rotation envVerifyFail stOk).1) :=
  ⟨rfl, rfl, rfl, rfl, rfl, rfl, rfl, rfl,
   C2_verify_failure_rolls_back envVerifyFail stOk rfl rfl rfl rfl rfl rfl rfl rfl⟩

/-- Claim C3: in every rotate2.py rotation run that reaches COMMIT and whose
Vault write fails, the run terminates FAILED with the store error, Vault still
holds the old secret, the newly created key is not rolled back (it is still
ACTIVE at the service), and the old key is not deactivated (every service key
bearing the old id, in particular the old key itself, is still ACTIVE). -/
theorem C3_commit_failure_keeps_both_active (env : Env2) (st : PState)
    (a : String)
    (hA : getField st.vault "access_key_id" = some a)
    (h1 : env.readOk = true)
    (h2 : fieldBlank (getField st.vault "access_key_id") = false)
    (h3 : fieldBlank (getField st.vault "secret_key") = false)
    (h4 : env.loginOldOk = true)
    (h5 : env.listOk = true)
    (h6 : (cleanupLoop env.delOk st.keys st.keys).2.2 = none)
    (h7 : env.createOk = true)
    (h8 : env.loginNewOk = true)
    (h9 : env.writeOk = false)
    (hact : ∀ k, k ∈ st.keys → k.id = a → k.status = true)
    (hmem : (⟨a, true⟩ : Key2) ∈ st.keys)
    (hfresh : env.newId ≠ a) :
    (process_rotation env st).2.2 = Except.error RotErr.storeFail
    ∧ (process_rotation env st).2.1.vault = st.vault
    ∧ (⟨a, true⟩ : Key2) ∈ (process_rotation env st).2.1.keys
    ∧ (⟨env.newId, true⟩ : Key2) ∈ (process_rotation env st).2.1.keys
    ∧ ∀ k, k ∈ (process_rotation env st).2.1.keys → k.id = a → k.status = true := by
  have hkeys : (process_rotation env st).2.1.keys
      = (cleanupLoop env.delOk st.keys st.keys).2.1 ++ [⟨env.newId, true⟩] := by
    simp [process_rotation, h1, h2, h3, h4, h5, h6, h7, h8, h9]
  have hres : (process_rotation env st).2.2 = Except.error RotErr.storeFail := by
    simp [process_rotation, h1, h2, h3, h4, h5, h6, h7, h8, h9]
  have hvault : (process_rotation env st).2.1.vault = st.vault := by
    simp [process_rotation, h1, h2, h3, h4, h5, h6, h7, h8, h9]
  refine ⟨hres, hvault, ?_, ?_, ?_⟩
  · rw [hkeys]
    exact List.mem_append_left _
      (cleanupLoop_preserves_active env.delOk st.keys a hact st.keys hmem)
  · rw [hkeys]
    exact List.mem_append_right _ (by simp)
  · intro k hk hid
    rw [hkeys] at hk
    rcases List.mem_append.mp hk with hk | hk
    · exact hact k (cleanupLoop_keys_subset env.delOk st.keys st.keys k hk) hid
    · simp only [List.mem_singleton] at hk
      subst hk
      rfl

/-- Claim C3 witness: the COMMIT-failure oracle on the healthy pre-state. -/
theorem C3_witness :
    getField stOk.vault "access_key_id" = some "K1"
    ∧ envWriteFail.writeOk = false
    ∧ (∀ k, k ∈ stOk.keys → k.id = "K1" → k.status = true)
    ∧ (⟨"K1", true⟩ : Key2) ∈ stOk.keys
    ∧ envWriteFail.newId ≠ "K1"
    ∧ ((process_rotation envWriteFail stOk).2.2 = Except.error RotErr.storeFail
       ∧ (process_rotation envWriteFail stOk).2.1.vault = stOk.vault
       ∧ (⟨"K1", true⟩ : Key2) ∈ (process_rotation envWriteFail stOk).2.1.keys
       ∧ (⟨envWriteFail.newId, true⟩ : Key2) ∈ (process_rotation envWriteFail stOk).2.1.keys
       ∧ ∀ k, k ∈ (process_rotation envWriteFail stOk).2.1.keys → k.id = "K1" → k.status = true) :=
  ⟨rfl, rfl, by decide, by decide, by decide,
   C3_commit_failure_keeps_both_active envWriteFail stOk "K1" rfl rfl rfl rfl rfl rfl
     rfl rfl rfl rfl (by decide) (by decide) (by decide)⟩

/-- Claim C10: in every rotate2.py rotation run that commits (reaches the
Vault write and the write succeeds — whatever becomes of the final
deactivation patch), the mapping written to the store is the previously read
secret with exactly the fields `access_key_id` and `secret_key` replaced by
the new credential's values; every other field's lookup is preserved. -/
theorem C10_commit_preserves_other_fields (env : Env2) (st : PState)
    (h1 : env.readOk = true)
    (h2 : fieldBlank (getField st.vault "access_key_id") = false)
    (h3 : fieldBlank (getField st.vault "secret_key") = false)
    (h4 : env.loginOldOk = true)
    (h5 : env.listOk = true)
    (h6 : (cleanupLoop env.delOk st.keys st.keys).2.2 = none)
    (h7 : env.createOk = true)
    (h8 : env.loginNewOk = true)
    (h9 : env.writeOk = true) :
    (process_rotation env st).2.1.vault = newVaultData st.vault env.newId env.newSecret
    ∧ getField (process_rotation env st).2.1.vault "access_key_id" = some env.newId
    ∧ getField (process_rotation env st).2.1.vault "secret_key" = some env.newSecret
    ∧ ∀ k, k ≠ "access_key_id" → k ≠ "secret_key" →
        getField (process_rotation env st).2.1.vault k = getField st.vault k := by
  have hvault : (process_rotation env st).2.1.vault
      = newVaultData st.vault env.newId env.newSecret := by
    cases hP : env.patchOk <;>
      simp [process_rotation, h1, h2, h3, h4, h5, h6, h7, h8, h9, hP]
  refine ⟨hvault, ?_, ?_, ?_⟩
  · rw [hvault, newVaultData, getField_setField_other _ _ _ _ (by decide),
        getField_setField_self]
  · rw [hvault, newVaultData, getField_setField_self]
  · intro k hk1 hk2
    rw [hvault, newVaultData, getField_setField_other _ _ _ _ hk2,
        getField_setField_other _ _ _ _ hk1]

/-- Claim C10 witness: the all-success oracle on a pre-state whose secret has
an extra `note` field, which the committed mapping preserves. -/
theorem C10_witness :
    envOk.writeOk = true
    ∧ ((process_rotation envOk stOk).2.1.vault
         = newVaultData stOk.vault envOk.newId envOk.newSecret
       ∧ getField (process_rotation envOk stOk).2.1.vault "access_key_id" = some envOk.newId
       ∧ getField (process_rotation envOk stOk).2.1.vault "secret_key" = some envOk.newSecret
       ∧ ∀ k, k ≠ "access_key_id" → k ≠ "secret_key" →
           getField (process_rotation envOk stOk).2.1.vault k = getField stOk.vault k) :=
  ⟨rfl, C10_commit_preserves_other_fields envOk stOk rfl rfl rfl rfl rfl rfl rfl rfl rfl⟩

/-- Claim C6: in the CLEANUP step, deletion is requested exactly for the
INACTIVE keys of the listed snapshot and never for an ACTIVE one.  For
rotate2.py's per-key loop: every attempted id belongs to an INACTIVE snapshot
key (unconditionally), and when those deletions succeed the attempted ids are
exactly the INACTIVE snapshot ids in listing order.  For rotation.py's
`delete_inactive_keys`: the only request it ever issues is one bulk deletion
of exactly the ids of the snapshot's INACTIVE keys. -/
theorem C6_cleanup_targets_exactly_inactive :
    (∀ (d : String → Bool) (snap ks : List Key2),
      (∀ k, k ∈ snap → k.status = false → d k.id = true) →
      (cleanupLoop d snap ks).1
        = (snap.filter (fun k => !k.status)).map (fun k => k.id))
    ∧ (∀ (d : String → Bool) (snap ks : List Key2) (i : String),
      i ∈ (cleanupLoop d snap ks).1 →
      ∃ k, k ∈ snap ∧ k.id = i ∧ k.status = false)
    ∧ (∀ (b : Bool) (t : String) (snap svc : List KeyR) (ev : Event),
      ev ∈ (delete_inactive_keys b t snap svc).1 →
      ev = Event.bulkDeleteReq t
        ((snap.filter (fun k => k.status == "INACTIVE")).map (fun k => k.id))) := by
  refine ⟨fun d snap ks h => cleanupLoop_attempts_exact d snap h ks,
          fun d snap ks i h => cleanupLoop_attempts_inactive d snap ks i h,
          ?_⟩
  intro b t snap svc ev h
  simp only [delete_inactive_keys] at h
  split at h
  · simp at h
  · simp only [List.mem_singleton] at h
    exact h

/-- Claim C6 witness: a snapshot with one INACTIVE and one ACTIVE key, all
deletions succeeding: exactly the INACTIVE id is attempted. -/
theorem C6_witness :
    (∀ k, k ∈ [(⟨"K0", false⟩ : Key2), ⟨"K1", true⟩] → k.status = false →
      (fun _ => true : String → Bool) k.id = true)
    ∧ (cleanupLoop (fun _ => true) [⟨"K0", false⟩, ⟨"K1", true⟩]
         [⟨"K0", false⟩, ⟨"K1", true⟩]).1
      = (([(⟨"K0", false⟩ : Key2), ⟨"K1", true⟩].filter (fun k => !k.status)).map
          (fun k => k.id)) :=
  ⟨by decide,
   C6_cleanup_targets_exactly_inactive.1 (fun _ => true)
     [⟨"K0", false⟩, ⟨"K1", true⟩] [⟨"K0", false⟩, ⟨"K1", true⟩] (by decide)⟩

/-- Claim C7: the batch runner produces exactly one result per configured
task; the i-th result is the result of running the i-th task alone, so order
is preserved and one task's failure (caught inside `runTask`) cannot affect or
suppress any other task's result. -/
theorem C7_one_result_per_task_in_order (cfg : List TaskItem) :
    (lambda_handler true cfg).2.length = cfg.length
    ∧ ∀ (i : Nat) (t0 : TaskItem), i < cfg.length →
        (lambda_handler true cfg).2.getD i (runTask t0) = runTask (cfg.getD i t0) := by
  constructor
  · simpa [lambda_handler] using runAll_length cfg
  · intro i t0 hi
    simpa [lambda_handler] using runAll_getD cfg i t0 hi

/-- Claim C7 witness: a two-task batch whose first task fails at FETCH; both
results are present, in order, the second unaffected. -/
theorem C7_witness :
    (0 < cfgTwo.length)
    ∧ (1 < cfgTwo.length)
    ∧ (lambda_handler true cfgTwo).2.length = cfgTwo.length
    ∧ (lambda_handler true cfgTwo).2.getD 0 (runTask taskDflt)
        = runTask (cfgTwo.getD 0 taskDflt)
    ∧ (lambda_handler true cfgTwo).2.getD 1 (runTask taskDflt)
        = runTask (cfgTwo.getD 1 taskDflt) :=
  ⟨by decide, by decide,
   (C7_one_result_per_task_in_order cfgTwo).1,
   (C7_one_result_per_task_in_order cfgTwo).2 0 taskDflt (by decide),
   (C7_one_result_per_task_in_order cfgTwo).2 1 taskDflt (by decide)⟩

/-- Claim C8 counterexample: a batch whose first task fails (its Vault read
errors) still returns statusCode 200 — the handler's return status does not
reflect the per-task failure, contradicting the claim. -/
theorem C8_counterexample :
    (lambda_handler true cfgTwo).2
        = [⟨"p1", false, some RotErr.fetchFail⟩, ⟨"p2", true, none⟩]
    ∧ (lambda_handler true cfgTwo).1 = 200 := by
  exact ⟨rfl, rfl⟩

/-- Claim C8 as amended: rotate2.py's `lambda_handler` returns statusCode 200
whenever the config loads, regardless of task outcomes, and 500 exactly when
loading the config fails; per-task failure is reported only inside the body's
results, never in the status code. -/
theorem C8_status_independent_of_task_failures (cfg : List TaskItem) :
    (lambda_handler true cfg).1 = 200 ∧ (lambda_handler false cfg).1 = 500 := by
  constructor <;> simp [lambda_handler]

/-- Claim C4 counterexample: a rotate2.py run whose CLEANUP deletion of the
stale INACTIVE key `K0` fails terminates FAILED at that step and never reaches
CREATE (no create request for any id appears in its trace), contradicting the
claim that a CLEANUP failure is non-fatal. -/
theorem C4_counterexample :
    (process_rotation envDelFail stWithInactive).2.2
        = Except.error (RotErr.cleanupDeleteFail "K0")
    ∧ Event.createReq "K2" ∉ (process_rotation envDelFail stWithInactive).1
    ∧ Event.storeWrite ∉ (process_rotation envDelFail stWithInactive).1 := by
  exact ⟨rfl, by decide, by decide⟩

/-- Claim C4 as amended: in rotate2.py's `process_rotation` a CLEANUP failure
is fatal — a failed key listing terminates the run FAILED with the listing
error, and a failed deletion of an inactive key terminates it FAILED with the
deletion error, in both cases without ever issuing a create request; only in
rotation.py are cleanup failures non-fatal (a failed listing yields an empty
key list and a failed bulk deletion is swallowed, the run still creating the
new key and completing). -/
theorem C4_cleanup_failure_fatal_in_rotate2 :
    (∀ (env : Env2) (st : PState),
      env.readOk = true →
      fieldBlank (getField st.vault "access_key_id") = false →
      fieldBlank (getField st.vault "secret_key") = false →
      env.loginOldOk = true → env.listOk = false →
      (process_rotation env st).2.2 = Except.error RotErr.listFail
      ∧ ∀ i, Event.createReq i ∉ (process_rotation env st).1)
    ∧ (∀ (env : Env2) (st : PState) (i : String),
      env.readOk = true →
      fieldBlank (getField st.vault "access_key_id") = false →
      fieldBlank (getField st.vault "secret_key") = false →
      env.loginOldOk = true → env.listOk = true →
      (cleanupLoop env.delOk st.keys st.keys).2.2 = some i →
      (process_rotation env st).2.2 = Except.error (RotErr.cleanupDeleteFail i)
      ∧ ∀ j, Event.createReq j ∉ (process_rotation env st).1)
    ∧ (∀ (env : EnvR) (svc : List KeyR),
      env.envSet = true → env.loginOk = true → env.createOk = true →
      (rotation_main env svc).2.2 = Except.ok (env.newId, env.newSecret)
      ∧ Event.createReq env.newId ∈ (rotation_main env svc).1) := by
  refine ⟨?_, ?_, ?_⟩
  · intro env st h1 h2 h3 h4 h5
    refine ⟨?_, ?_⟩ <;> simp [process_rotation, h1, h2, h3, h4, h5]
  · intro env st i h1 h2 h3 h4 h5 h6
    refine ⟨?_, ?_⟩ <;> simp [process_rotation, h1, h2, h3, h4, h5, h6]
  · intro env svc h1 h2 h3
    rcases hf : List.find? (fun k => k.status == "ACTIVE")
        (if env.listOk then svc else []) with _ | k <;>
      refine ⟨?_, ?_⟩ <;> simp [rotation_main, h1, h2, h3, hf]

/-- Claim C4 witness: the failed-deletion branch of the amended claim at the
CLEANUP-failure run, and the rotation.py branch at a run with a failing bulk
delete. -/
theorem C4_witness :
    ((cleanupLoop envDelFail.delOk stWithInactive.keys stWithInactive.keys).2.2
        = some "K0")
    ∧ ((process_rotation envDelFail stWithInactive).2.2
        = Except.error (RotErr.cleanupDeleteFail "K0")
       ∧ ∀ j, Event.createReq j ∉ (process_rotation envDelFail stWithInactive).1)
    ∧ ((rotation_main ⟨true, true, "tokA", true, false, true, "K2", "S2", true⟩
          [⟨"K1", "ACTIVE"⟩, ⟨"K0", "INACTIVE"⟩]).2.2 = Except.ok ("K2", "S2")
       ∧ Event.createReq "K2"
           ∈ (rotation_main ⟨true, true, "tokA", true, false, true, "K2", "S2", true⟩
               [⟨"K1", "ACTIVE"⟩, ⟨"K0", "INACTIVE"⟩]).1) :=
  ⟨rfl,
   C4_cleanup_failure_fatal_in_rotate2.2.1 envDelFail stWithInactive "K0"
     rfl rfl rfl rfl rfl rfl,
   C4_cleanup_failure_fatal_in_rotate2.2.2
     ⟨true, true, "tokA", true, false, true, "K2", "S2", true⟩
     [⟨"K1", "ACTIVE"⟩, ⟨"K0", "INACTIVE"⟩] rfl rfl rfl⟩

/-- Claim C5 counterexample: a rotate2.py run in which everything up to and
including the Vault commit succeeds (the store write is in its trace) but the
deactivation patch fails terminates FAILED, not DONE — contradicting the
claim that a DEACTIVATE failure still yields a successful run. -/
theorem C5_counterexample :
    (process_rotation envPatchFail stOk).2.2 = Except.error RotErr.deactivateFail
    ∧ Event.storeWrite ∈ (process_rotation envPatchFail stOk).1 := by
  exact ⟨rfl, by decide⟩

/-- Claim C5 as amended: in rotate2.py's `process_rotation`, a run that
reaches DEACTIVATE with a failing patch terminates FAILED with the
deactivation error (the new credential nevertheless already committed to
Vault); only rotation.py treats a deactivation failure as non-fatal, its run
still completing and emitting the new credential. -/
theorem C5_deactivate_failure_fatal_in_rotate2 :
    (∀ (env : Env2) (st : PState),
      env.readOk = true →
      fieldBlank (getField st.vault "access_key_id") = false →
      fieldBlank (getField st.vault "secret_key") = false →
      env.loginOldOk = true → env.listOk = true →
      (cleanupLoop env.delOk st.keys st.keys).2.2 = none →
      env.createOk = true → env.loginNewOk = true → env.writeOk = true →
      env.patchOk = false →
      (process_rotation env st).2.2 = Except.error RotErr.deactivateFail
      ∧ (process_rotation env st).2.1.vault
          = newVaultData st.vault env.newId env.newSecret)
    ∧ (∀ (env : EnvR) (svc : List KeyR),
      env.envSet = true → env.loginOk = true → env.createOk = true →
      env.deactOk = false →
      (rotation_main env svc).2.2 = Except.ok (env.newId, env.newSecret)) := by
  refine ⟨?_, ?_⟩
  · intro env st h1 h2 h3 h4 h5 h6 h7 h8 h9 h10
    refine ⟨?_, ?_⟩ <;>
      simp [process_rotation, h1, h2, h3, h4, h5, h6, h7, h8, h9, h10]
  · intro env svc h1 h2 h3 h4
    rcases hf : List.find? (fun k => k.status == "ACTIVE")
        (if env.listOk then svc else []) with _ | k <;>
      simp [rotation_main, h1, h2, h3, hf]

/-- Claim C5 witness: the failing-patch oracle on the healthy pre-state, and
the rotation.py failing-deactivation run. -/
theorem C5_witness :
    (envPatchFail.patchOk = false)
    ∧ ((process_rotation envPatchFail stOk).2.2 = Except.error RotErr.deactivateFail
       ∧ (process_rotation envPatchFail stOk).2.1.vault
           = newVaultData stOk.vault envPatchFail.newId envPatchFail.newSecret)
    ∧ (envRDeactFail.deactOk = false)
    ∧ (rotation_main envRDeactFail svcROk).2.2
        = Except.ok (envRDeactFail.newId, envRDeactFail.newSecret) :=
  ⟨rfl,
   C5_deactivate_failure_fatal_in_rotate2.1 envPatchFail stOk
     rfl rfl rfl rfl rfl rfl rfl rfl rfl rfl,
   rfl,
   C5_deactivate_failure_fatal_in_rotate2.2 envRDeactFail svcROk rfl rfl rfl rfl⟩

/-- Claim C1 counterexample: a fully successful rotation.py run (one ACTIVE
key, every call succeeding) commits the new credential as the credential of
record — its final stdout emission, which per the script's own comment Vault
reads to update the secret store — without a single login with that new
credential ever having occurred, so the run's trace fails the
commit-only-after-verification check. -/
theorem C1_counterexample :
    commitAfterVerify false (rotation_main envROk svcROk).1 = false
    ∧ (rotation_main envROk svcROk).2.2 = Except.ok ("K2", "S2") := by
  exact ⟨rfl, rfl⟩

/-- Claim C1 as amended: in rotate2.py's `process_rotation` — the Lambda
rotation state machine — the secret store write is never invoked before a
login with the newly created credential has succeeded: along every execution
path, every store-write request in the run's trace is preceded by a
successful new-credential login.  (rotation.py's `main` does not satisfy
this: it emits the new credential for the store without verifying it.) -/
theorem C1_store_write_only_after_verify (env : Env2) (st : PState) :
    commitAfterVerify false (process_rotation env st).1 = true := by
  cases hR : env.readOk <;>
  cases hB : (fieldBlank (getField st.vault "access_key_id")
      || fieldBlank (getField st.vault "secret_key")) <;>
  cases hLA : env.loginOldOk <;>
  cases hLI : env.listOk <;>
  cases hc : (cleanupLoop env.delOk st.keys st.keys).2.2 <;>
  cases hCR : env.createOk <;>
  cases hV : env.loginNewOk <;>
  cases hW : env.writeOk <;>
  cases hP : env.patchOk <;>
  simp [process_rotation, hR, hB, hLA, hLI, hc, hCR, hV, hW, hP,
        commitAfterVerify, commitAfterVerify_skip_deletes, commitAfterVerify_deletes]

/-- Claim C9 counterexample: in a fully successful rotation.py run the
deactivation of the previously active key `K1` is requested with the token
obtained by logging in with the OLD credential (the only login the script
ever performs), so the run's trace fails the check that every deactivation
request carries a token obtained by logging in with the newly created
credential. -/
theorem C9_counterexample :
    deactUsesVerifiedSession [] (rotation_main envROk svcROk).1 = false
    ∧ Event.deactivateReq envROk.tokenA "K1" ∈ (rotation_main envROk svcROk).1
    ∧ Event.loginOld envROk.tokenA ∈ (rotation_main envROk svcROk).1 := by
  exact ⟨rfl, by decide, by decide⟩

/-- Claim C9 as amended: in rotate2.py's `process_rotation`, every request
that sets the old key's status to INACTIVE carries a token previously
obtained by logging in with the newly created credential (session B), never
the session-A token.  (rotation.py's `main` does not satisfy this: it
deactivates the old key with the old credential's session.) -/
theorem C9_deactivate_uses_session_B (env : Env2) (st : PState) :
    deactUsesVerifiedSession [] (process_rotation env st).1 = true := by
  cases hR : env.readOk <;>
  cases hB : (fieldBlank (getField st.vault "access_key_id")
      || fieldBlank (getField st.vault "secret_key")) <;>
  cases hLA : env.loginOldOk <;>
  cases hLI : env.listOk <;>
  cases hc : (cleanupLoop env.delOk st.keys st.keys).2.2 <;>
  cases hCR : env.createOk <;>
  cases hV : env.loginNewOk <;>
  cases hW : env.writeOk <;>
  cases hP : env.patchOk <;>
  simp [process_rotation, hR, hB, hLA, hLI, hc, hCR, hV, hW, hP,
        deactUsesVerifiedSession, deactUses_skip_deletes, deactUses_deletes,
        List.contains, List.elem]
